import Mathlib

/-!
Verification of stem/connection.py: the PROTOCOLINFO discovery-reply parser,
the cookie-path resolution heuristic, and the three authentication handshakes.

The Python source is shallowly embedded below.  External collaborators of the
source module (the mapped-line tokenizer of stem.socket, the process-table
helpers of stem.util.system, the transport, and the filesystem) are modelled
from the specification at their interface boundary; everything in
connection.py itself is translated directly.
-/

namespace Stem

/-- Authentication methods a controller can use, mirroring the AuthMethod
enum of the source (NONE, PASSWORD, COOKIE, UNKNOWN). -/
inductive AuthMethod
  | NONE
  | PASSWORD
  | COOKIE
  | UNKNOWN
deriving DecidableEq, Repr

/-- Modelled from the spec: the Mapped-Line Tokenizer turns a raw protocol
line into tokens, each either a bare positional token or a KEY=VALUE mapping
token (quoting and escape processing happen inside the external tokenizer,
so a mapping token here carries the already-unquoted value). -/
inductive Token
  | pos (s : String)
  | map (k v : String)
deriving DecidableEq, Repr

/-- Modelled from the spec: the raw text of one token, as it appears on the
wire line (a mapping token reads KEY=VALUE). -/
def Token.str : Token → String
  | Token.pos s => s
  | Token.map k v => k ++ "=" ++ v

/-- A tokenized protocol line. -/
abbrev Line := List Token

/-- Modelled from the spec: the underlying string of a whole line, tokens
joined by single spaces.  The source compares this string against literals
(line == OK) and checks its prefix (startswith). -/
def renderLine : Line → String
  | [] => ""
  | [t] => t.str
  | t :: rest => t.str ++ " " ++ renderLine rest

/-- Python str.startswith: the first string begins with the second, as
character sequences. -/
def pyStartsWith (s px : String) : Bool := px.toList.isPrefixOf s.toList

/-- Python str.split restricted to a one-character separator, on character
lists; splitting the empty list yields one empty piece, as in Python. -/
def splitChar (sep : Char) : List Char → List (List Char)
  | [] => [[]]
  | c :: cs =>
    let r := splitChar sep cs
    if c = sep then [] :: r
    else
      match r with
      | [] => [[c]]
      | h :: t => (c :: h) :: t

/-- Python str.split with a one-character separator, on strings. -/
def pySplit (s : String) (sep : Char) : List String :=
  (splitChar sep s.toList).map String.mk

/-- Modelled from the spec: detection of a pending KEY=VALUE mapping with the
given key as the next token of the line (ControlLine.is_next_mapping). -/
def is_next_mapping (key : String) : Line → Bool
  | Token.map k _ :: _ => k == key
  | _ => false

/-- Errors raised by the source: stem.socket.ProtocolError (the MalformedReply
of the spec) and stem.socket.SocketError, both subclasses of ControllerError.
The interpolated line content of the Python messages is omitted. -/
inductive ControllerError
  | protocolError (msg : String)
  | socketError (msg : String)
deriving DecidableEq, Repr

/-- Diagnostic log entries emitted by the source via the module logger. -/
inductive LogMsg
  | warnVersion (v : Nat)
  | unknownMethod (m : String)
  | unknownLine (t : String)
  | expandFailed (label : String)
deriving DecidableEq, Repr

/-- The fields of ProtocolInfoResponse populated by _parse_message. -/
structure PState where
  protocol_version : Option Nat := none
  tor_version : Option String := none
  cookie_path : Option String := none
  auth_methods : List AuthMethod := []
  unknown_auth_methods : List String := []
deriving DecidableEq, Repr

/-- The response state before any line is parsed. -/
def PState.init : PState := {}

/-- Modelled from the spec: the process-table helpers of stem.util.system and
the version grammar of stem.version, consumed by connection.py but defined
outside it.  Lookups return none on failure; version_ok tells whether a
version string is accepted by the external version parser. -/
structure SysEnv where
  pid_by_name : String → Option Nat
  pid_by_port : Nat → Option Nat
  pid_by_open_file : String → Option Nat
  get_cwd : Nat → Option String
  version_ok : String → Bool

/-- The three pid-resolution strategies passed to _expand_cookie_path. -/
inductive PidResolver
  | byName (name : String)
  | byPort (port : Nat)
  | byOpenFile (path : String)
deriving DecidableEq, Repr

/-- Runs a resolution strategy against the system environment. -/
def PidResolver.run (env : SysEnv) : PidResolver → Option Nat
  | PidResolver.byName n => env.pid_by_name n
  | PidResolver.byPort p => env.pid_by_port p
  | PidResolver.byOpenFile f => env.pid_by_open_file f

/-- The diagnostic label the source attaches to each resolution strategy. -/
def PidResolver.label : PidResolver → String
  | PidResolver.byName _ => " by name"
  | PidResolver.byPort _ => " by port"
  | PidResolver.byOpenFile _ => " by socket file"

/-- Modelled from the spec: stem.util.system.is_relative_path, true when the
path is not absolute. -/
def is_relative_path (p : String) : Bool := !(pyStartsWith p "/")

/-- Modelled from the spec: stem.util.system.expand_path joins a relative
path onto a working directory. -/
def expand_path (p cwd : String) : String := cwd ++ "/" ++ p

/-- Translation of _expand_cookie_path: best-effort expansion of a relative
cookie path.  Returns the new cookie path together with the diagnostic log
entries; every failure leaves the path unchanged and logs, mirroring the
caught IOError.  An option value that Python would treat as falsy (None, an
empty string, pid zero) takes the failure branch.  The function is total:
no exception ever reaches the caller. -/
def expandCookiePath (env : SysEnv) (cp : Option String) (r : PidResolver) :
    Option String × List LogMsg :=
  match cp with
  | none => (cp, [])
  | some s =>
    if s.isEmpty then (cp, [])
    else if is_relative_path s then
      match r.run env with
      | none => (cp, [LogMsg.expandFailed r.label])
      | some pid =>
        if pid == 0 then (cp, [LogMsg.expandFailed r.label])
        else
          match env.get_cwd pid with
          | none => (cp, [LogMsg.expandFailed r.label])
          | some cwd =>
            if cwd.isEmpty then (cp, [LogMsg.expandFailed r.label])
            else (some (expand_path s cwd), [])
    else (cp, [])

/-- Python str.isdigit: the string is nonempty and all characters are
digits (restricted to ASCII digits in this model). -/
def pyIsDigit (s : String) : Bool := !s.isEmpty && s.toList.all Char.isDigit

/-- Python int() applied to an all-digit string. -/
def strToNat (s : String) : Nat :=
  s.toList.foldl (fun n c => 10 * n + (c.toNat - 48)) 0

/-- One step of the METHODS fold of _parse_message: accumulates the mapped
auth methods, the unrecognized method names, and the info-level log entries.
An unrecognized name appends AuthMethod.UNKNOWN only when absent. -/
def addAuthMethod (acc : List AuthMethod × List String × List LogMsg)
    (m : String) : List AuthMethod × List String × List LogMsg :=
  if m = "NULL" then (acc.1 ++ [AuthMethod.NONE], acc.2.1, acc.2.2)
  else if m = "HASHEDPASSWORD" then (acc.1 ++ [AuthMethod.PASSWORD], acc.2.1, acc.2.2)
  else if m = "COOKIE" then (acc.1 ++ [AuthMethod.COOKIE], acc.2.1, acc.2.2)
  else
    let uams := acc.2.1 ++ [m]
    let logs := acc.2.2 ++ [LogMsg.unknownMethod m]
    if AuthMethod.UNKNOWN ∈ acc.1 then (acc.1, uams, logs)
    else (acc.1 ++ [AuthMethod.UNKNOWN], uams, logs)

/-- Following the spec, for comparison with the fold of the source: the
name-to-method mapping NULL to NONE, HASHEDPASSWORD to PASSWORD, COOKIE to
COOKIE; any other name is unrecognized. -/
def specAuthMethod (m : String) : Option AuthMethod :=
  if m = "NULL" then some AuthMethod.NONE
  else if m = "HASHEDPASSWORD" then some AuthMethod.PASSWORD
  else if m = "COOKIE" then some AuthMethod.COOKIE
  else none

/-- Translation of the PROTOCOLINFO branch of _parse_message, applied to the
line after the leading type tag has been popped: a missing or non-digit
version token is a ProtocolError; otherwise the version is stored and a
warning is logged when it is not the requested version 1. -/
def parseHeaderLine (st : PState) (l : Line) :
    Except ControllerError (PState × List LogMsg) :=
  match l with
  | [] => Except.error (ControllerError.protocolError
      "PROTOCOLINFO response initial line is missing the protocol version")
  | tok :: _ =>
    if pyIsDigit tok.str then
      let v := strToNat tok.str
      Except.ok ({ st with protocol_version := some v },
        if v ≠ 1 then [LogMsg.warnVersion v] else [])
    else Except.error (ControllerError.protocolError
      "PROTOCOLINFO response version is non-numeric")

/-- Translation of the AUTH branch of _parse_message, applied to the line
after the leading type tag has been popped: the METHODS mapping is mandatory,
its value is split on commas and folded into the method lists, and an
optional COOKIEFILE mapping stores the cookie path and immediately attempts
a best-effort expansion keyed by the process name tor. -/
def parseAuthLine (env : SysEnv) (st : PState) (l : Line) :
    Except ControllerError (PState × List LogMsg) :=
  match l with
  | Token.map k v :: rest =>
    if k = "METHODS" then
      let acc := (pySplit v ',').foldl addAuthMethod
        (st.auth_methods, st.unknown_auth_methods, ([] : List LogMsg))
      let st1 : PState := { st with auth_methods := acc.1,
                                    unknown_auth_methods := acc.2.1 }
      match rest with
      | Token.map k2 path :: _ =>
        if k2 = "COOKIEFILE" then
          let ex := expandCookiePath env (some path) (PidResolver.byName "tor")
          Except.ok ({ st1 with cookie_path := ex.1 }, acc.2.2 ++ ex.2)
        else Except.ok (st1, acc.2.2)
      | _ => Except.ok (st1, acc.2.2)
    else Except.error (ControllerError.protocolError
      "PROTOCOLINFO response AUTH line is missing its mandatory METHODS mapping")
  | _ => Except.error (ControllerError.protocolError
      "PROTOCOLINFO response AUTH line is missing its mandatory METHODS mapping")

/-- Translation of the VERSION branch of _parse_message, applied to the line
after the leading type tag has been popped: the quoted Tor mapping is
mandatory and its value must be accepted by the external version parser. -/
def parseVersionLine (env : SysEnv) (st : PState) (l : Line) :
    Except ControllerError (PState × List LogMsg) :=
  match l with
  | Token.map k tv :: _ =>
    if k = "Tor" then
      if env.version_ok tv then Except.ok ({ st with tor_version := some tv }, [])
      else Except.error (ControllerError.protocolError
        "PROTOCOLINFO response has a malformed tor version")
    else Except.error (ControllerError.protocolError
      "PROTOCOLINFO response VERSION line is missing its mandatory tor version mapping")
  | _ => Except.error (ControllerError.protocolError
      "PROTOCOLINFO response VERSION line is missing its mandatory tor version mapping")

/-- Dispatch on the popped leading type tag of one non-empty, non-OK line;
an unrecognized tag is ignored with a debug log entry. -/
def parseStep (env : SysEnv) (st : PState) (l : Line) :
    Except ControllerError (PState × List LogMsg) :=
  match l with
  | [] => Except.ok (st, [])
  | tok :: ltoks =>
    if tok.str = "PROTOCOLINFO" then parseHeaderLine st ltoks
    else if tok.str = "AUTH" then parseAuthLine env st ltoks
    else if tok.str = "VERSION" then parseVersionLine env st ltoks
    else Except.ok (st, [LogMsg.unknownLine tok.str])

/-- Translation of the line loop of _parse_message: stop successfully at a
line that is exactly OK, skip empty lines, and otherwise dispatch on the
leading type tag, aborting on the first error. -/
def parseLines (env : SysEnv) : PState → List Line →
    Except ControllerError (PState × List LogMsg)
  | st, [] => Except.ok (st, [])
  | st, l :: rest =>
    if renderLine l = "OK" then Except.ok (st, [])
    else if l.isEmpty then parseLines env st rest
    else
      match parseStep env st l with
      | Except.error e => Except.error e
      | Except.ok (st2, lg) =>
        match parseLines env st2 rest with
        | Except.error e => Except.error e
        | Except.ok (st3, lg2) => Except.ok (st3, lg ++ lg2)

/-- Translation of _parse_message as invoked by ProtocolInfoResponse.convert:
the sanity check requires the first line to start with the string
PROTOCOLINFO, then the line loop runs from the initial state. -/
def parseProtocolInfo (env : SysEnv) (lines : List Line) :
    Except ControllerError (PState × List LogMsg) :=
  if pyStartsWith (renderLine (lines.headD [])) "PROTOCOLINFO" then
    parseLines env PState.init lines
  else Except.error (ControllerError.protocolError
    "Message is not a PROTOCOLINFO response")

/-- Observable side effects of an authentication handshake: commands sent
over the transport and cookie-file content reads.  Existence and size checks
are stat calls, not content reads, and do not appear here. -/
inductive IOEvent
  | sendCmd (cmd : String)
  | readFile (path : String)
deriving DecidableEq, Repr

/-- Failures of the authentication handshakes: the OSError for a missing
cookie file (MissingCookieFile of the spec), the ValueError for a cookie of
the wrong size (InvalidCookieSize), and the ValueError carrying the reply
text of a rejected authentication attempt (AuthenticationRejected). -/
inductive AuthError
  | missingCookieFile (path : String)
  | invalidCookieSize (path : String) (size : Nat)
  | authenticationRejected (reply : String)
deriving DecidableEq, Repr

/-- Modelled from the spec: the filesystem seen through os.path.exists,
os.path.getsize and open/read; a file is its byte contents, or absent. -/
structure FileSystem where
  file : String → Option (List Nat)

/-- Lowercase hex digit of a nibble. -/
def hexDigit (n : Nat) : Char := "0123456789abcdef".toList.getD n '0'

/-- binascii.b2a_hex: each byte becomes two lowercase hex digits. -/
def hexEncode (bs : List Nat) : String :=
  String.mk (bs.foldr (fun b acc => hexDigit (b / 16 % 16) :: hexDigit (b % 16) :: acc) [])

/-- Translation of authenticate_none: send the bare AUTHENTICATE command and
demand the exact reply OK.  The reply argument is what the transport recv
returns; the result pairs the emitted events with the outcome. -/
def authenticate_none (reply : String) : List IOEvent × Except AuthError Unit :=
  ([IOEvent.sendCmd "AUTHENTICATE"],
   if reply = "OK" then Except.ok ()
   else Except.error (AuthError.authenticationRejected reply))

/-- Python str.replace restricted to the one use in the source: each double
quote character becomes a backslash followed by the quote. -/
def escapeQuotes : List Char → List Char
  | [] => []
  | c :: cs =>
    if c = '"' then '\\' :: '"' :: escapeQuotes cs
    else c :: escapeQuotes cs

/-- Translation of authenticate_password: escape double quotes in the
passphrase, send it as a quoted argument, and demand the exact reply OK. -/
def authenticate_password (password reply : String) :
    List IOEvent × Except AuthError Unit :=
  let escaped := String.mk (escapeQuotes password.toList)
  ([IOEvent.sendCmd ("AUTHENTICATE \"" ++ escaped ++ "\"")],
   if reply = "OK" then Except.ok ()
   else Except.error (AuthError.authenticationRejected reply))

/-- Translation of authenticate_cookie: fail if the cookie file is absent,
fail if its size is not exactly 32 bytes, and only then read its contents,
hex-encode them and send them; the reply must be exactly OK. -/
def authenticate_cookie (fs : FileSystem) (cookie_path reply : String) :
    List IOEvent × Except AuthError Unit :=
  match fs.file cookie_path with
  | none => ([], Except.error (AuthError.missingCookieFile cookie_path))
  | some bytes =>
    if bytes.length ≠ 32 then
      ([], Except.error (AuthError.invalidCookieSize cookie_path bytes.length))
    else
      ([IOEvent.readFile cookie_path,
        IOEvent.sendCmd ("AUTHENTICATE " ++ hexEncode bytes)],
       if reply = "OK" then Except.ok ()
       else Except.error (AuthError.authenticationRejected reply))

/-- Modelled from the spec: the transport abstraction of stem.socket as the
orchestrators use it.  connect and send may fail with a SocketError; recv
yields the tokenized reply lines or a ControllerError. -/
structure Transport where
  connect_ok : Bool
  send_ok : Bool
  recv : Except ControllerError (List Line)

/-- Outcome of a discovery query: the parse result (with its logs and, on
success, whether the still-open socket was handed back to the caller) and
whether the socket ended up closed. -/
structure QueryOutcome where
  result : Except ControllerError (PState × List LogMsg × Bool)
  socket_closed : Bool

/-- Translation of get_protocolinfo_by_port: connect, send PROTOCOLINFO 1,
parse the reply, expand a relative cookie path keyed by the port only when
the control address is 127.0.0.1, and close the socket unless the caller
asked for it; any ControllerError closes the socket and propagates. -/
def get_protocolinfo_by_port (env : SysEnv) (t : Transport)
    (control_addr : String) (control_port : Nat) (get_socket : Bool) :
    QueryOutcome :=
  if !t.connect_ok then
    { result := Except.error (ControllerError.socketError "connect failed"),
      socket_closed := true }
  else if !t.send_ok then
    { result := Except.error (ControllerError.socketError "send failed"),
      socket_closed := true }
  else
    match t.recv with
    | Except.error e => { result := Except.error e, socket_closed := true }
    | Except.ok lines =>
      match parseProtocolInfo env lines with
      | Except.error e => { result := Except.error e, socket_closed := true }
      | Except.ok (resp, logs) =>
        let ex :=
          if control_addr = "127.0.0.1" then
            let e := expandCookiePath env resp.cookie_path
              (PidResolver.byPort control_port)
            ({ resp with cookie_path := e.1 }, logs ++ e.2)
          else (resp, logs)
        if get_socket then
          { result := Except.ok (ex.1, ex.2, true), socket_closed := false }
        else
          { result := Except.ok (ex.1, ex.2, false), socket_closed := true }

/-- Translation of get_protocolinfo_by_socket: as by_port, but the post-parse
cookie-path expansion is keyed by the open socket file and is attempted
unconditionally. -/
def get_protocolinfo_by_socket (env : SysEnv) (t : Transport)
    (socket_path : String) (get_socket : Bool) : QueryOutcome :=
  if !t.connect_ok then
    { result := Except.error (ControllerError.socketError "connect failed"),
      socket_closed := true }
  else if !t.send_ok then
    { result := Except.error (ControllerError.socketError "send failed"),
      socket_closed := true }
  else
    match t.recv with
    | Except.error e => { result := Except.error e, socket_closed := true }
    | Except.ok lines =>
      match parseProtocolInfo env lines with
      | Except.error e => { result := Except.error e, socket_closed := true }
      | Except.ok (resp, logs) =>
        let e := expandCookiePath env resp.cookie_path
          (PidResolver.byOpenFile socket_path)
        let ex := ({ resp with cookie_path := e.1 }, logs ++ e.2)
        if get_socket then
          { result := Except.ok (ex.1, ex.2, true), socket_closed := false }
        else
          { result := Except.ok (ex.1, ex.2, false), socket_closed := true }

/-- The continuation of the line loop after one dispatched step: abort on an
error, otherwise run the remaining lines and prepend the logs of the step.
The body of parseLines on a dispatched line is definitionally seqTail
applied to the outcome of the step. -/
def seqTail (env : SysEnv) (rest : List Line)
    (x : Except ControllerError (PState × List LogMsg)) :
    Except ControllerError (PState × List LogMsg) :=
  match x with
  | Except.error e => Except.error e
  | Except.ok (st2, lg) =>
    match parseLines env st2 rest with
    | Except.error e => Except.error e
    | Except.ok (st3, lg2) => Except.ok (st3, lg ++ lg2)

/-- Relation between two parse outcomes that agree except possibly in the
stored protocol version, which in the second outcome may have been replaced
by the given value: same error, or same logs and states equal up to that one
field.  Used to state that the line loop never reads protocol_version. -/
def VersionAgnostic (v : Option Nat)
    (x y : Except ControllerError (PState × List LogMsg)) : Prop :=
  match x, y with
  | Except.ok (r1, l1), Except.ok (r2, l2) =>
      l2 = l1 ∧ (r2 = r1 ∨ r2 = { r1 with protocol_version := v })
  | Except.error e1, Except.error e2 => e2 = e1
  | _, _ => False

/-- A system environment whose lookups all fail and whose version parser
accepts everything; used for concrete evaluations. -/
def envNone : SysEnv :=
  { pid_by_name := fun _ => none
    pid_by_port := fun _ => none
    pid_by_open_file := fun _ => none
    get_cwd := fun _ => none
    version_ok := fun _ => true }

deriving instance DecidableEq for Except

/-- C1: the cookie handshake fails with MissingCookieFile (naming the path)
when the cookie file does not exist, fails with InvalidCookieSize (reporting
the actual size and the path) when its size is not exactly 32 bytes, reads
nothing and sends nothing in either failure case, and only for an existing
32-byte file reads the contents, hex-encodes them and sends them. -/
theorem authenticate_cookie_validation (fs : FileSystem) (path reply : String) :
    (fs.file path = none →
      authenticate_cookie fs path reply
        = ([], Except.error (AuthError.missingCookieFile path)))
    ∧ (∀ bs, fs.file path = some bs → bs.length ≠ 32 →
      authenticate_cookie fs path reply
        = ([], Except.error (AuthError.invalidCookieSize path bs.length)))
    ∧ (∀ bs, fs.file path = some bs → bs.length = 32 →
      (authenticate_cookie fs path reply).1
        = [IOEvent.readFile path,
           IOEvent.sendCmd ("AUTHENTICATE " ++ hexEncode bs)]) := by
  refine ⟨fun h => ?_, fun bs h hlen => ?_, fun bs h hlen => ?_⟩
  · simp [authenticate_cookie, h]
  · simp [authenticate_cookie, h, hlen]
  · simp [authenticate_cookie, h, hlen]

/-- C1 witness: a missing cookie file at a concrete path. -/
theorem authenticate_cookie_validation_witness :
    authenticate_cookie ⟨fun _ => none⟩ "/run/tor/control_auth_cookie" "OK"
      = ([], Except.error
          (AuthError.missingCookieFile "/run/tor/control_auth_cookie")) :=
  (authenticate_cookie_validation ⟨fun _ => none⟩
    "/run/tor/control_auth_cookie" "OK").1 rfl

/-- C8: each of the three handshakes, once it sends its command, succeeds
exactly when the reply is the literal OK and otherwise fails with
AuthenticationRejected carrying the reply text; for the cookie handshake
this is conditional on the validation passing, since otherwise nothing is
sent and no reply exists. -/
theorem authenticate_reply_ok_iff (reply password path : String)
    (fs : FileSystem) :
    ((authenticate_none reply).2 = Except.ok () ↔ reply = "OK")
    ∧ (reply ≠ "OK" → (authenticate_none reply).2
        = Except.error (AuthError.authenticationRejected reply))
    ∧ ((authenticate_password password reply).2 = Except.ok () ↔ reply = "OK")
    ∧ (reply ≠ "OK" → (authenticate_password password reply).2
        = Except.error (AuthError.authenticationRejected reply))
    ∧ (∀ bs, fs.file path = some bs → bs.length = 32 →
        (((authenticate_cookie fs path reply).2 = Except.ok () ↔ reply = "OK")
         ∧ (reply ≠ "OK" → (authenticate_cookie fs path reply).2
             = Except.error (AuthError.authenticationRejected reply)))) := by
  by_cases h : reply = "OK" <;>
    simp [authenticate_none, authenticate_password, authenticate_cookie, h] <;>
    intro bs hbs hlen <;> simp [hbs, hlen]

/-- C8 witness: a rejected no-credential handshake at a concrete reply. -/
theorem authenticate_reply_ok_iff_witness :
    (authenticate_none "515 Authentication failed").2
      = Except.error (AuthError.authenticationRejected
          "515 Authentication failed") :=
  (authenticate_reply_ok_iff "515 Authentication failed" "pw" "/c"
    ⟨fun _ => none⟩).2.1 (by decide)

/-- C7: the cookie-path resolver is total (it never raises), is a no-op when
the path is absent, empty or already absolute, leaves the path unchanged and
logs a diagnostic labelled with the strategy when the pid or cwd lookup
fails, and rewrites the path only when it is relative and both lookups
succeed, to the relative path joined onto the working directory. -/
theorem expand_cookie_path_best_effort (env : SysEnv) (cp : Option String)
    (r : PidResolver) :
    (cp = none → expandCookiePath env cp r = (cp, []))
    ∧ (∀ s, cp = some s → s.isEmpty = true →
        expandCookiePath env cp r = (cp, []))
    ∧ (∀ s, cp = some s → is_relative_path s = false →
        expandCookiePath env cp r = (cp, []))
    ∧ (∀ s, cp = some s → s.isEmpty = false → is_relative_path s = true →
        (r.run env = none ∨ r.run env = some 0) →
        expandCookiePath env cp r = (cp, [LogMsg.expandFailed r.label]))
    ∧ (∀ s pid, cp = some s → s.isEmpty = false → is_relative_path s = true →
        r.run env = some pid → pid ≠ 0 →
        (env.get_cwd pid = none ∨ env.get_cwd pid = some "") →
        expandCookiePath env cp r = (cp, [LogMsg.expandFailed r.label]))
    ∧ (∀ s, cp = some s → (expandCookiePath env cp r).1 ≠ cp →
        ∃ pid cwd, is_relative_path s = true ∧ r.run env = some pid ∧ pid ≠ 0
          ∧ env.get_cwd pid = some cwd ∧ cwd.isEmpty = false
          ∧ (expandCookiePath env cp r).1 = some (expand_path s cwd)) := by
  refine ⟨fun h => ?_, fun s h he => ?_, fun s h habs => ?_,
          fun s h he hrel hfail => ?_, fun s pid h he hrel hpid hz hcwd => ?_,
          fun s h hne => ?_⟩
  · simp [expandCookiePath, h]
  · simp [expandCookiePath, h, he]
  · by_cases he : s.isEmpty <;> simp [expandCookiePath, h, he, habs]
  · rcases hfail with hf | hf <;> simp [expandCookiePath, h, he, hrel, hf]
  · rcases hcwd with hc | hc <;>
      simp [expandCookiePath, h, he, hrel, hpid, hz, hc, String.isEmpty_iff]
  · subst h
    unfold expandCookiePath at hne ⊢
    by_cases he : s.isEmpty
    · simp [he] at hne
    · by_cases hrel : is_relative_path s
      · cases hp : r.run env with
        | none => simp [he, hrel, hp] at hne
        | some pid =>
          by_cases hz : pid = 0
          · simp [he, hrel, hp, hz] at hne
          · cases hc : env.get_cwd pid with
            | none => simp [he, hrel, hp, hz, hc] at hne
            | some cwd =>
              by_cases hce : cwd.isEmpty
              · simp [he, hrel, hp, hz, hc, hce] at hne
              · exact ⟨pid, cwd, hrel, hp ▸ rfl, hz, hc ▸ rfl, by simpa using hce,
                  by simp [he, hrel, hp, hz, hc, hce]⟩
      · simp [he, hrel] at hne

/-- C7 witness: resolving an already-absolute cookie path is a no-op even
though every lookup of the environment fails. -/
theorem expand_cookie_path_best_effort_witness :
    expandCookiePath envNone (some "/abs/control_auth_cookie")
      (PidResolver.byPort 9051) = (some "/abs/control_auth_cookie", []) :=
  (expand_cookie_path_best_effort envNone (some "/abs/control_auth_cookie")
    (PidResolver.byPort 9051)).2.2.1 "/abs/control_auth_cookie" rfl (by decide)

/-- C2 counterexample: a reply whose first line is the single token
PROTOCOLINFO1 passes the prefix sanity check, supplies no protocol version,
and is nevertheless accepted with protocol_version unset. -/
theorem protocol_version_absent_accepted :
    parseProtocolInfo envNone [[Token.pos "PROTOCOLINFO1"], [Token.pos "OK"]]
      = Except.ok (⟨none, none, none, [], []⟩,
          [LogMsg.unknownLine "PROTOCOLINFO1"]) := rfl

/-- C4 counterexample: a first line whose leading token PROTOCOLINFOX is not
the reply keyword still passes the check (the source tests a string prefix,
not token equality) and the reply is accepted. -/
theorem first_line_keyword_counterexample :
    (Token.pos "PROTOCOLINFOX").str ≠ "PROTOCOLINFO"
    ∧ parseProtocolInfo envNone
        [[Token.pos "PROTOCOLINFOX", Token.pos "1"], [Token.pos "OK"]]
      = Except.ok (⟨none, none, none, [], []⟩,
          [LogMsg.unknownLine "PROTOCOLINFOX"]) := ⟨by decide, rfl⟩

/-- C4 amended: the sanity check is a string-prefix test on the first line,
not leading-token equality; the parse fails with MalformedReply exactly when
the first line does not start with the keyword string, and otherwise the
line loop runs. -/
theorem first_line_prefix_check (env : SysEnv) (lines : List Line) :
    (pyStartsWith (renderLine (lines.headD [])) "PROTOCOLINFO" = false →
      parseProtocolInfo env lines
        = Except.error (ControllerError.protocolError
            "Message is not a PROTOCOLINFO response"))
    ∧ (pyStartsWith (renderLine (lines.headD [])) "PROTOCOLINFO" = true →
      parseProtocolInfo env lines = parseLines env PState.init lines) := by
  constructor <;> intro h <;> unfold parseProtocolInfo
  · rw [if_neg (by rw [h]; simp)]
  · rw [if_pos h]

/-- C4 witness: a reply whose first line lacks the keyword prefix fails. -/
theorem first_line_prefix_check_witness :
    parseProtocolInfo envNone [[Token.pos "AUTH", Token.map "METHODS" "NULL"]]
      = Except.error (ControllerError.protocolError
          "Message is not a PROTOCOLINFO response") :=
  (first_line_prefix_check envNone
    [[Token.pos "AUTH", Token.map "METHODS" "NULL"]]).1 (by decide)

/-- C5: an AUTH line without a METHODS mapping as its next token aborts the
parse with MalformedReply (shown end-to-end on a concrete reply), and an
AUTH line with the METHODS mapping present always parses successfully,
whatever method names it lists. -/
theorem auth_methods_mapping_required (env : SysEnv) (st : PState) (l : Line) :
    (is_next_mapping "METHODS" l = false →
      parseAuthLine env st l = Except.error (ControllerError.protocolError
        "PROTOCOLINFO response AUTH line is missing its mandatory METHODS mapping"))
    ∧ (is_next_mapping "METHODS" l = true →
      (parseAuthLine env st l).isOk = true)
    ∧ parseProtocolInfo envNone
        [[Token.pos "PROTOCOLINFO", Token.pos "1"], [Token.pos "AUTH"],
         [Token.pos "OK"]]
      = Except.error (ControllerError.protocolError
          "PROTOCOLINFO response AUTH line is missing its mandatory METHODS mapping") := by
  refine ⟨fun h => ?_, fun h => ?_, rfl⟩
  · cases l with
    | nil => rfl
    | cons t rest =>
      cases t with
      | pos s => rfl
      | map k v =>
        have hk : ¬ k = "METHODS" := by simpa [is_next_mapping] using h
        simp [parseAuthLine, hk]
  · cases l with
    | nil => simp [is_next_mapping] at h
    | cons t rest =>
      cases t with
      | pos s => simp [is_next_mapping] at h
      | map k v =>
        have hk : k = "METHODS" := by simpa [is_next_mapping] using h
        subst hk
        cases rest with
        | nil => simp [parseAuthLine, Except.isOk, Except.toBool]
        | cons t2 r2 =>
          cases t2 with
          | pos s2 => simp [parseAuthLine, Except.isOk, Except.toBool]
          | map k2 p2 =>
            by_cases h2 : k2 = "COOKIEFILE" <;>
              simp [parseAuthLine, h2, Except.isOk, Except.toBool]

/-- C5 witness: an AUTH line with no tokens at all fails for the missing
METHODS mapping. -/
theorem auth_methods_mapping_required_witness :
    parseAuthLine envNone PState.init []
      = Except.error (ControllerError.protocolError
          "PROTOCOLINFO response AUTH line is missing its mandatory METHODS mapping") :=
  (auth_methods_mapping_required envNone PState.init []).1 rfl

/-- C2 amended: on a discovery-header line the parser stores a present
all-digit version token as protocol_version and fails with MalformedReply
when the token is absent or non-numeric; however the protocol version is not
guaranteed present in an accepted reply, because a first line that merely
starts with the keyword string (without PROTOCOLINFO as its leading token)
passes the sanity check and yields no version. -/
theorem protocol_version_parsing (st : PState) (tok : Token) (extra : Line) :
    (pyIsDigit tok.str = true →
      parseHeaderLine st (tok :: extra)
        = Except.ok ({ st with protocol_version := some (strToNat tok.str) },
            if strToNat tok.str ≠ 1
            then [LogMsg.warnVersion (strToNat tok.str)] else []))
    ∧ parseHeaderLine st []
        = Except.error (ControllerError.protocolError
            "PROTOCOLINFO response initial line is missing the protocol version")
    ∧ (pyIsDigit tok.str = false →
      parseHeaderLine st (tok :: extra)
        = Except.error (ControllerError.protocolError
            "PROTOCOLINFO response version is non-numeric"))
    ∧ parseProtocolInfo envNone
        [[Token.pos "PROTOCOLINFO", Token.pos "41"], [Token.pos "OK"]]
      = Except.ok (⟨some 41, none, none, [], []⟩, [LogMsg.warnVersion 41])
    ∧ parseProtocolInfo envNone
        [[Token.pos "PROTOCOLINFO", Token.pos "4x"], [Token.pos "OK"]]
      = Except.error (ControllerError.protocolError
          "PROTOCOLINFO response version is non-numeric")
    ∧ parseProtocolInfo envNone [[Token.pos "PROTOCOLINFO"], [Token.pos "OK"]]
      = Except.error (ControllerError.protocolError
          "PROTOCOLINFO response initial line is missing the protocol version") := by
  refine ⟨fun h => ?_, rfl, fun h => ?_, rfl, rfl, rfl⟩
  · simp [parseHeaderLine, h]
  · simp [parseHeaderLine, h]

/-- C2 witness: a concrete digit token is stored with its warning. -/
theorem protocol_version_parsing_witness :
    parseHeaderLine PState.init [Token.pos "7"]
      = Except.ok (⟨some 7, none, none, [], []⟩, [LogMsg.warnVersion 7]) :=
  (protocol_version_parsing PState.init (Token.pos "7") []).1 rfl

/-- C10: whenever either discovery entry point propagates a ControllerError,
the socket has been closed first, for every get_socket choice; the caller
never receives an open transport together with such an error. -/
theorem query_error_closes_socket (env : SysEnv) (t : Transport)
    (addr spath : String) (port : Nat) (gs : Bool) (e : ControllerError) :
    ((get_protocolinfo_by_port env t addr port gs).result = Except.error e →
      (get_protocolinfo_by_port env t addr port gs).socket_closed = true)
    ∧ ((get_protocolinfo_by_socket env t spath gs).result = Except.error e →
      (get_protocolinfo_by_socket env t spath gs).socket_closed = true) := by
  constructor
  · intro h
    unfold get_protocolinfo_by_port at h ⊢
    cases hc : t.connect_ok <;> simp [hc] at h ⊢
    cases hs : t.send_ok <;> simp [hs] at h ⊢
    cases hr : t.recv <;> simp [hr] at h ⊢
    case ok lines =>
      cases hp : parseProtocolInfo env lines <;> simp [hp] at h ⊢
      case ok pr =>
        obtain ⟨resp, logs⟩ := pr
        cases gs <;> simp at h ⊢
  · intro h
    unfold get_protocolinfo_by_socket at h ⊢
    cases hc : t.connect_ok <;> simp [hc] at h ⊢
    cases hs : t.send_ok <;> simp [hs] at h ⊢
    cases hr : t.recv <;> simp [hr] at h ⊢
    case ok lines =>
      cases hp : parseProtocolInfo env lines <;> simp [hp] at h ⊢
      case ok pr =>
        obtain ⟨resp, logs⟩ := pr
        cases gs <;> simp at h ⊢

/-- C10 witness: a failed connect propagates an error with the socket
closed, even though the caller asked to keep the socket. -/
theorem query_error_closes_socket_witness :
    (get_protocolinfo_by_port envNone ⟨false, true, Except.ok []⟩
      "127.0.0.1" 9051 true).socket_closed = true :=
  (query_error_closes_socket envNone ⟨false, true, Except.ok []⟩
    "127.0.0.1" "/sock" 9051 true
    (ControllerError.socketError "connect failed")).1 rfl

/-- C9: after a successful parse, the port entry point rewrites cookie_path
through the port-keyed resolver exactly when the control address is
127.0.0.1; for any other address the parse result is returned untouched. -/
theorem port_query_localhost_resolution (env : SysEnv) (t : Transport)
    (addr : String) (port : Nat) (gs : Bool) (lines : List Line)
    (resp : PState) (logs : List LogMsg)
    (h1 : t.connect_ok = true) (h2 : t.send_ok = true)
    (h3 : t.recv = Except.ok lines)
    (h4 : parseProtocolInfo env lines = Except.ok (resp, logs)) :
    (addr ≠ "127.0.0.1" →
      (get_protocolinfo_by_port env t addr port gs).result
        = Except.ok (resp, logs, gs))
    ∧ (addr = "127.0.0.1" →
      (get_protocolinfo_by_port env t addr port gs).result
        = Except.ok
            ({ resp with cookie_path := (expandCookiePath env resp.cookie_path
                (PidResolver.byPort port)).1 },
             logs ++ (expandCookiePath env resp.cookie_path
                (PidResolver.byPort port)).2,
             gs)) := by
  constructor <;> intro ha <;>
    · unfold get_protocolinfo_by_port
      simp [h1, h2, h3, h4, ha]
      cases gs <;> simp

/-- C9 witness: with a non-localhost address the parse result is returned
with its cookie path untouched. -/
theorem port_query_localhost_resolution_witness :
    (get_protocolinfo_by_port envNone
      ⟨true, true, Except.ok [[Token.pos "PROTOCOLINFO", Token.pos "1"],
                              [Token.pos "OK"]]⟩
      "192.168.0.5" 9051 false).result
      = Except.ok (⟨some 1, none, none, [], []⟩, [], false) :=
  (port_query_localhost_resolution envNone
    ⟨true, true, Except.ok [[Token.pos "PROTOCOLINFO", Token.pos "1"],
                            [Token.pos "OK"]]⟩
    "192.168.0.5" 9051 false
    [[Token.pos "PROTOCOLINFO", Token.pos "1"], [Token.pos "OK"]]
    ⟨some 1, none, none, [], []⟩ [] rfl rfl rfl rfl).1 (by decide)

/-- The unrecognized names accumulated by the METHODS fold are exactly the
names the spec mapping rejects, in order, appended to the accumulator. -/
theorem authFold_unknowns (names : List String) :
    ∀ ams uams logs,
      (names.foldl addAuthMethod (ams, uams, logs)).2.1
        = uams ++ names.filter (fun n => (specAuthMethod n).isNone) := by
  induction names with
  | nil => intro ams uams logs; simp
  | cons n rest ih =>
    intro ams uams logs
    simp only [List.foldl_cons]
    by_cases h1 : n = "NULL"
    · simp [addAuthMethod, h1, specAuthMethod, ih]
    · by_cases h2 : n = "HASHEDPASSWORD"
      · simp [addAuthMethod, h1, h2, specAuthMethod, ih]
      · by_cases h3 : n = "COOKIE"
        · simp [addAuthMethod, h1, h2, h3, specAuthMethod, ih]
        · by_cases hm : AuthMethod.UNKNOWN ∈ ams <;>
            simp [addAuthMethod, h1, h2, h3, hm, specAuthMethod, ih]

/-- Once UNKNOWN is in the accumulator, the METHODS fold never adds another
occurrence of it. -/
theorem authFold_count_mem (names : List String) :
    ∀ ams uams logs, AuthMethod.UNKNOWN ∈ ams →
      ((names.foldl addAuthMethod (ams, uams, logs)).1).count AuthMethod.UNKNOWN
        = ams.count AuthMethod.UNKNOWN := by
  induction names with
  | nil => intro ams uams logs _; simp
  | cons n rest ih =>
    intro ams uams logs hm
    simp only [List.foldl_cons]
    by_cases h1 : n = "NULL"
    · rw [show addAuthMethod (ams, uams, logs) n
          = (ams ++ [AuthMethod.NONE], uams, logs) by simp [addAuthMethod, h1]]
      rw [ih _ _ _ (List.mem_append_left _ hm)]
      simp
    · by_cases h2 : n = "HASHEDPASSWORD"
      · rw [show addAuthMethod (ams, uams, logs) n
            = (ams ++ [AuthMethod.PASSWORD], uams, logs) by
              simp [addAuthMethod, h1, h2]]
        rw [ih _ _ _ (List.mem_append_left _ hm)]
        simp
      · by_cases h3 : n = "COOKIE"
        · rw [show addAuthMethod (ams, uams, logs) n
              = (ams ++ [AuthMethod.COOKIE], uams, logs) by
                simp [addAuthMethod, h1, h2, h3]]
          rw [ih _ _ _ (List.mem_append_left _ hm)]
          simp
        · rw [show addAuthMethod (ams, uams, logs) n
              = (ams, uams ++ [n], logs ++ [LogMsg.unknownMethod n]) by
                simp [addAuthMethod, h1, h2, h3, hm]]
          exact ih _ _ _ hm

/-- Starting from an accumulator without UNKNOWN, the METHODS fold produces
at most one UNKNOWN. -/
theorem authFold_count_le (names : List String) :
    ∀ ams uams logs, AuthMethod.UNKNOWN ∉ ams →
      ((names.foldl addAuthMethod (ams, uams, logs)).1).count AuthMethod.UNKNOWN
        ≤ ams.count AuthMethod.UNKNOWN + 1 := by
  induction names with
  | nil =>
    intro ams uams logs _
    simp
  | cons n rest ih =>
    intro ams uams logs hm
    simp only [List.foldl_cons]
    by_cases h1 : n = "NULL"
    · rw [show addAuthMethod (ams, uams, logs) n
          = (ams ++ [AuthMethod.NONE], uams, logs) by simp [addAuthMethod, h1]]
      have := ih (ams ++ [AuthMethod.NONE]) uams logs (by simp [hm])
      simpa using this
    · by_cases h2 : n = "HASHEDPASSWORD"
      · rw [show addAuthMethod (ams, uams, logs) n
            = (ams ++ [AuthMethod.PASSWORD], uams, logs) by
              simp [addAuthMethod, h1, h2]]
        have := ih (ams ++ [AuthMethod.PASSWORD]) uams logs (by simp [hm])
        simpa using this
      · by_cases h3 : n = "COOKIE"
        · rw [show addAuthMethod (ams, uams, logs) n
              = (ams ++ [AuthMethod.COOKIE], uams, logs) by
                simp [addAuthMethod, h1, h2, h3]]
          have := ih (ams ++ [AuthMethod.COOKIE]) uams logs (by simp [hm])
          simpa using this
        · rw [show addAuthMethod (ams, uams, logs) n
              = (ams ++ [AuthMethod.UNKNOWN], uams ++ [n],
                 logs ++ [LogMsg.unknownMethod n]) by
                simp [addAuthMethod, h1, h2, h3, hm]]
          rw [authFold_count_mem rest _ _ _ (by simp)]
          simp

/-- The recognized methods produced by the METHODS fold, with the UNKNOWN
marker removed, are the spec mapping applied to the names in order. -/
theorem authFold_known_filter (names : List String) :
    ∀ ams uams logs,
      ((names.foldl addAuthMethod (ams, uams, logs)).1).filter
          (fun m => m != AuthMethod.UNKNOWN)
        = ams.filter (fun m => m != AuthMethod.UNKNOWN)
          ++ names.filterMap specAuthMethod := by
  induction names with
  | nil => intro ams uams logs; simp
  | cons n rest ih =>
    intro ams uams logs
    simp only [List.foldl_cons]
    by_cases h1 : n = "NULL"
    · simp [addAuthMethod, h1, specAuthMethod, ih]
    · by_cases h2 : n = "HASHEDPASSWORD"
      · simp [addAuthMethod, h1, h2, specAuthMethod, ih]
      · by_cases h3 : n = "COOKIE"
        · simp [addAuthMethod, h1, h2, h3, specAuthMethod, ih]
        · by_cases hm : AuthMethod.UNKNOWN ∈ ams <;>
            simp [addAuthMethod, h1, h2, h3, hm, specAuthMethod, ih]

/-- C3: the METHODS fold maps recognized names in order through the spec
mapping, collects every unrecognized name verbatim and in order, and never
holds more than one UNKNOWN; the two listed replies parse to exactly the
claimed methods end-to-end. -/
theorem auth_methods_mapping (names : List String) :
    (names.foldl addAuthMethod ([], [], [])).2.1
        = names.filter (fun n => (specAuthMethod n).isNone)
    ∧ ((names.foldl addAuthMethod ([], [], [])).1).count AuthMethod.UNKNOWN ≤ 1
    ∧ ((names.foldl addAuthMethod ([], [], [])).1).filter
          (fun m => m != AuthMethod.UNKNOWN)
        = names.filterMap specAuthMethod
    ∧ parseProtocolInfo envNone
        [[Token.pos "PROTOCOLINFO", Token.pos "1"],
         [Token.pos "AUTH", Token.map "METHODS" "NULL,FOO,BAR"],
         [Token.pos "OK"]]
      = Except.ok (⟨some 1, none, none,
          [AuthMethod.NONE, AuthMethod.UNKNOWN], ["FOO", "BAR"]⟩,
          [LogMsg.unknownMethod "FOO", LogMsg.unknownMethod "BAR"])
    ∧ parseProtocolInfo envNone
        [[Token.pos "PROTOCOLINFO", Token.pos "1"],
         [Token.pos "AUTH", Token.map "METHODS" "NULL,HASHEDPASSWORD,COOKIE"],
         [Token.pos "OK"]]
      = Except.ok (⟨some 1, none, none,
          [AuthMethod.NONE, AuthMethod.PASSWORD, AuthMethod.COOKIE], []⟩, []) :=
  ⟨by simpa using authFold_unknowns names [] [] [],
   by simpa using authFold_count_le names [] [] [] (by simp),
   by simpa using authFold_known_filter names [] [] [],
   rfl, rfl⟩

/-- The header branch never reads the previously stored protocol version. -/
theorem parseHeaderLine_set (st : PState) (v : Option Nat) (l : Line) :
    parseHeaderLine { st with protocol_version := v } l = parseHeaderLine st l := by
  cases st
  cases l <;> rfl

/-- The AUTH branch neither reads nor writes the protocol version. -/
theorem parseAuthLine_set (env : SysEnv) (st : PState) (v : Option Nat)
    (l : Line) :
    parseAuthLine env { st with protocol_version := v } l
      = (parseAuthLine env st l).map
          (fun p => ({ p.1 with protocol_version := v }, p.2)) := by
  cases st
  cases l with
  | nil => rfl
  | cons t rest =>
    cases t with
    | pos s => rfl
    | map k mv =>
      by_cases hk : k = "METHODS"
      · subst hk
        cases rest with
        | nil => rfl
        | cons t2 r2 =>
          cases t2 with
          | pos s2 => rfl
          | map k2 p2 =>
            by_cases h2 : k2 = "COOKIEFILE"
            · subst h2; rfl
            · simp only [parseAuthLine, if_neg h2, if_pos rfl]
              rfl
      · simp [parseAuthLine, hk, Except.map]

/-- The VERSION branch neither reads nor writes the protocol version. -/
theorem parseVersionLine_set (env : SysEnv) (st : PState) (v : Option Nat)
    (l : Line) :
    parseVersionLine env { st with protocol_version := v } l
      = (parseVersionLine env st l).map
          (fun p => ({ p.1 with protocol_version := v }, p.2)) := by
  cases st
  cases l with
  | nil => rfl
  | cons t rest =>
    cases t with
    | pos s => rfl
    | map k tv =>
      by_cases hk : k = "Tor"
      · subst hk
        by_cases hv : env.version_ok tv
        · simp only [parseVersionLine, if_pos rfl, if_pos hv]
          rfl
        · simp only [parseVersionLine, if_pos rfl, if_neg hv]
          rfl
      · simp [parseVersionLine, hk, Except.map]

/-- VersionAgnostic is reflexive. -/
theorem versionAgnostic_refl (v : Option Nat)
    (x : Except ControllerError (PState × List LogMsg)) :
    VersionAgnostic v x x := by
  cases x with
  | error e => exact rfl
  | ok p => exact ⟨rfl, Or.inl rfl⟩

/-- Overwriting the protocol version of an outcome is VersionAgnostic. -/
theorem versionAgnostic_map (v : Option Nat)
    (x : Except ControllerError (PState × List LogMsg)) :
    VersionAgnostic v x
      (x.map (fun p => ({ p.1 with protocol_version := v }, p.2))) := by
  cases x with
  | error e => exact rfl
  | ok p => exact ⟨rfl, Or.inr rfl⟩

/-- Sequencing a VersionAgnostic step with the rest of the line loop keeps
the outcomes VersionAgnostic. -/
theorem versionAgnostic_seq (env : SysEnv) (rest : List Line) (v : Option Nat)
    (x y : Except ControllerError (PState × List LogMsg))
    (hxy : VersionAgnostic v x y)
    (ih : ∀ st2 : PState, VersionAgnostic v (parseLines env st2 rest)
        (parseLines env { st2 with protocol_version := v } rest)) :
    VersionAgnostic v (seqTail env rest x) (seqTail env rest y) := by
  cases x with
  | error e1 =>
    cases y with
    | error e2 => exact hxy
    | ok p => exact absurd hxy (by simp [VersionAgnostic])
  | ok p1 =>
    obtain ⟨st2, lg⟩ := p1
    cases y with
    | error e => exact absurd hxy (by simp [VersionAgnostic])
    | ok p2 =>
      obtain ⟨st2a, lga⟩ := p2
      obtain ⟨hl, hst⟩ := hxy
      subst hl
      rcases hst with h | h
      · subst h
        exact versionAgnostic_refl v _
      · subst h
        have h2 := ih st2
        simp only [seqTail]
        cases hr1 : parseLines env st2 rest with
        | error e1 =>
          cases hr2 : parseLines env
              { st2 with protocol_version := v } rest with
          | error e2 =>
            rw [hr1, hr2] at h2
            exact h2
          | ok p =>
            rw [hr1, hr2] at h2
            exact absurd h2 (by simp [VersionAgnostic])
        | ok p =>
          obtain ⟨st3, lg2⟩ := p
          cases hr2 : parseLines env
              { st2 with protocol_version := v } rest with
          | error e2 =>
            rw [hr1, hr2] at h2
            exact absurd h2 (by simp [VersionAgnostic])
          | ok p2 =>
            obtain ⟨st3a, lg2a⟩ := p2
            rw [hr1, hr2] at h2
            obtain ⟨hl2, hst2⟩ := h2
            subst hl2
            exact ⟨rfl, hst2⟩

/-- The line loop never reads the stored protocol version: from two states
differing only there, it produces VersionAgnostic outcomes with identical
logs. -/
theorem parseLines_set (env : SysEnv) (ls : List Line) :
    ∀ (st : PState) (v : Option Nat),
      VersionAgnostic v (parseLines env st ls)
        (parseLines env { st with protocol_version := v } ls) := by
  induction ls with
  | nil =>
    intro st v
    exact ⟨rfl, Or.inr rfl⟩
  | cons l rest ih =>
    intro st v
    by_cases hOK : renderLine l = "OK"
    · simp only [parseLines, if_pos hOK]
      exact ⟨rfl, Or.inr rfl⟩
    · by_cases hE : l.isEmpty
      · simp only [parseLines, if_neg hOK, if_pos hE]
        exact ih st v
      · cases l with
        | nil => simp [List.isEmpty] at hE
        | cons tok ltoks =>
          have hstep : VersionAgnostic v
              (parseStep env st (tok :: ltoks))
              (parseStep env { st with protocol_version := v }
                (tok :: ltoks)) := by
            by_cases h1 : tok.str = "PROTOCOLINFO"
            · simp only [parseStep, if_pos h1, parseHeaderLine_set]
              exact versionAgnostic_refl v _
            · by_cases h2 : tok.str = "AUTH"
              · simp only [parseStep, if_neg h1, if_pos h2, parseAuthLine_set]
                exact versionAgnostic_map v _
              · by_cases h3 : tok.str = "VERSION"
                · simp only [parseStep, if_neg h1, if_neg h2, if_pos h3,
                    parseVersionLine_set]
                  exact versionAgnostic_map v _
                · simp only [parseStep, if_neg h1, if_neg h2, if_neg h3]
                  exact ⟨rfl, Or.inr rfl⟩
          simp only [parseLines, if_neg hOK, if_neg hE]
          exact versionAgnostic_seq env rest v _ _ hstep (fun st2 => ih st2 v)


/-- The rendered text of a two-token header line is never the literal OK. -/
theorem renderLine_header_ne_ok (kw tok : String) :
    ¬ renderLine [Token.pos ("PROTOCOLINFO" ++ kw), Token.pos tok] = "OK" := by
  intro h
  have h2 : ("PROTOCOLINFO" ++ kw ++ " " ++ tok).data = "OK".data :=
    congrArg String.data h
  have h3 : ("PROTOCOLINFO" ++ kw ++ " " ++ tok).data
      = 'P' :: ("ROTOCOLINFO".data ++ kw.data ++ " ".data ++ tok.data) := by
    show ("PROTOCOLINFO".data ++ kw.data ++ " ".data ++ tok.data)
      = 'P' :: ("ROTOCOLINFO".data ++ kw.data ++ " ".data ++ tok.data)
    simp [show "PROTOCOLINFO".data = 'P' :: "ROTOCOLINFO".data from rfl]
  rw [h3] at h2
  have := congrArg (fun l => l.headD ' ') h2
  simp at this

/-- A dispatched line (neither the OK marker nor empty) advances the loop by
one parseStep followed by the continuation. -/
theorem parseLines_cons_step (env : SysEnv) (st : PState) (l : Line)
    (rest : List Line) (hOK : ¬ renderLine l = "OK")
    (hE : l.isEmpty = false) :
    parseLines env st (l :: rest) = seqTail env rest (parseStep env st l) := by
  simp only [parseLines, if_neg hOK]
  rw [if_neg (by simp [hE])]
  rfl

/-- C6: an all-digit version token different from the requested version 1
does not abort the parse: the header branch stores the value and logs a
warning, and the remaining lines parse exactly as they would in a version-1
reply, with the same logs and the same fields except the stored version. -/
theorem version_mismatch_tolerated (env : SysEnv) (tok : String)
    (rest : List Line) (hd : pyIsDigit tok = true) (h1 : strToNat tok ≠ 1) :
    (∀ (st : PState) (extra : Line),
      parseHeaderLine st (Token.pos tok :: extra)
        = Except.ok ({ st with protocol_version := some (strToNat tok) },
            [LogMsg.warnVersion (strToNat tok)]))
    ∧ (match parseLines env PState.init
            ([Token.pos "PROTOCOLINFO", Token.pos tok] :: rest),
          parseLines env PState.init
            ([Token.pos "PROTOCOLINFO", Token.pos "1"] :: rest) with
       | Except.ok (r2, l2), Except.ok (r1, l1) =>
           l2 = LogMsg.warnVersion (strToNat tok) :: l1
           ∧ (r2 = r1
              ∨ r2 = { r1 with protocol_version := some (strToNat tok) })
       | Except.error e2, Except.error e1 => e2 = e1
       | _, _ => False) := by
  constructor
  · intro st extra
    simp [parseHeaderLine, Token.str, hd, h1]
  · have hne2 : ¬ renderLine [Token.pos "PROTOCOLINFO", Token.pos tok] = "OK" :=
      renderLine_header_ne_ok "" tok
    have hne1 : ¬ renderLine [Token.pos "PROTOCOLINFO", Token.pos "1"] = "OK" :=
      renderLine_header_ne_ok "" "1"
    rw [parseLines_cons_step env PState.init _ rest hne2 rfl,
        parseLines_cons_step env PState.init _ rest hne1 rfl]
    rw [show parseStep env PState.init [Token.pos "PROTOCOLINFO", Token.pos tok]
        = parseHeaderLine PState.init [Token.pos tok] from rfl]
    rw [show parseStep env PState.init [Token.pos "PROTOCOLINFO", Token.pos "1"]
        = Except.ok ({ PState.init with protocol_version := some 1 },
            ([] : List LogMsg)) from rfl]
    rw [show parseHeaderLine PState.init [Token.pos tok]
        = Except.ok ({ PState.init with
            protocol_version := some (strToNat tok) },
            [LogMsg.warnVersion (strToNat tok)]) from by
          simp [parseHeaderLine, Token.str, hd, h1]]
    simp only [seqTail]
    have hva : VersionAgnostic (some (strToNat tok))
        (parseLines env { PState.init with protocol_version := some 1 } rest)
        (parseLines env
          { PState.init with protocol_version := some (strToNat tok) } rest) :=
      parseLines_set env rest { PState.init with protocol_version := some 1 }
        (some (strToNat tok))
    cases hr2 : parseLines env
        { PState.init with protocol_version := some (strToNat tok) } rest with
    | error e2 =>
      cases hr1 : parseLines env
          { PState.init with protocol_version := some 1 } rest with
      | error e1 =>
        rw [hr1, hr2] at hva
        exact hva
      | ok p =>
        rw [hr1, hr2] at hva
        exact absurd hva (by simp [VersionAgnostic])
    | ok p2 =>
      obtain ⟨st3v, lg2v⟩ := p2
      cases hr1 : parseLines env
          { PState.init with protocol_version := some 1 } rest with
      | error e1 =>
        rw [hr1, hr2] at hva
        exact absurd hva (by simp [VersionAgnostic])
      | ok p1 =>
        obtain ⟨st31, lg21⟩ := p1
        rw [hr1, hr2] at hva
        obtain ⟨hl, hst⟩ := hva
        subst hl
        exact ⟨rfl, hst⟩

/-- C6 witness: the header branch stores a concrete version 2 and logs the
mismatch warning instead of failing. -/
theorem version_mismatch_tolerated_witness :
    parseHeaderLine PState.init [Token.pos "2"]
      = Except.ok (⟨some 2, none, none, [], []⟩, [LogMsg.warnVersion 2]) :=
  (version_mismatch_tolerated envNone "2" [] (by decide) (by decide)).1
    PState.init []

end Stem
